import Mathlib

/-!
Verification of the modsynth/db-module data-access layer.

The repository has two thin components over the GORM client library:

* package `db` (connection manager): `Config`, `New`, `Close`, `Ping`,
  `HealthCheck`, `Stats`, `Transaction` — modelled in namespace `Db`;
* package `repository` (generic repository): `Create`, `FindByID`,
  `FindAll`, `FindWhere`, `FirstWhere`, `Count`, `Paginate`,
  `Transaction` — modelled in namespace `Repository`.

Go machine integers (`int`, `int64`, `time.Duration`) are modelled as
`Int`; no claim exercises values anywhere near the 64-bit boundary, so
wrap-around is immaterial. The external GORM client is modelled as an
in-memory relational backend over a concrete record type mirroring the
test entity `TestUser` (integer auto primary key, unique `email`
column), with the error-classification contract GORM documents:
`First` yields `gorm.ErrRecordNotFound` on an empty result, `Find`
never turns an empty result into an error, `Create` surfaces the raw
driver constraint-violation error (the constructed `gorm.Config` does
not enable error translation), and `Transaction` commits on a nil
return of the unit of work and rolls back otherwise.
-/

namespace Db

/-- Nanoseconds in one hour, the value of Go's `time.Hour`. -/
def timeHour : Int := 3600000000000

/-- Nanoseconds in one minute, the value of Go's `time.Minute`. -/
def timeMinute : Int := 60000000000

/-- Configuration of the connection manager, mirroring `db.Config`:
driver name, DSN, the four pool-sizing parameters and the log level.
Durations are in nanoseconds as in Go. -/
structure Config where
  Driver : String
  DSN : String
  MaxOpenConns : Int
  MaxIdleConns : Int
  ConnMaxLifetime : Int
  ConnMaxIdleTime : Int
  LogLevel : Int
deriving DecidableEq, Repr

/-- Pool-sizing values applied to the underlying `sql.DB` client via
`SetMaxOpenConns` / `SetMaxIdleConns` / `SetConnMaxLifetime` /
`SetConnMaxIdleTime`. -/
structure PoolSettings where
  maxOpen : Int
  maxIdle : Int
  maxLifetime : Int
  maxIdleTime : Int
deriving DecidableEq, Repr

/-- Defaulting block of `New` (part_000 lines 46-57): each pool field
that is exactly zero is overwritten with its default, in place on the
caller's `*Config`. -/
def setDefaults (c : Config) : Config :=
  { c with
    MaxOpenConns := if c.MaxOpenConns = 0 then 100 else c.MaxOpenConns
    MaxIdleConns := if c.MaxIdleConns = 0 then 10 else c.MaxIdleConns
    ConnMaxLifetime := if c.ConnMaxLifetime = 0 then timeHour else c.ConnMaxLifetime
    ConnMaxIdleTime := if c.ConnMaxIdleTime = 0 then 10 * timeMinute else c.ConnMaxIdleTime }

/-- Result of `db.New`: either a construction error, or the state the
caller's `*Config` points to after the call together with the pool
settings that were applied to the underlying client. -/
inductive NewResult where
  | nilConfig
  | connError (msg : String)
  | ok (callerConfig : Config) (applied : PoolSettings)
deriving DecidableEq, Repr

/-- Model of `db.New` (part_000 lines 40-89). The caller's config is a
pointer, so the in-place defaulting is visible to the caller; `openOk`
abstracts whether `gorm.Open` succeeds for the given dialector/DSN. -/
def New (config : Option Config) (openOk : Bool) : NewResult :=
  match config with
  | none => .nilConfig
  | some c =>
    let c := setDefaults c
    if openOk then
      .ok c ⟨c.MaxOpenConns, c.MaxIdleConns, c.ConnMaxLifetime, c.ConnMaxIdleTime⟩
    else
      .connError "failed to connect to database"

/-- Error values a connection-manager operation can return, tagged with
the spec's error kinds. `degraded` is the plain
`errors.New("no open connections")` of `HealthCheck`; the `wrapped`
variants are the `fmt.Errorf("...: %w", err)` wrappings `HealthCheck`
adds around the errors `Ping` returns raw. -/
inductive ConnErr where
  | notConnected
  | clientErr (msg : String)
  | wrappedClientErr (msg : String)
  | pingFailed (msg : String)
  | wrappedPingFailed (msg : String)
  | degraded
deriving DecidableEq, Repr

/-- Observable state of a manager handle for the liveness operations:
whether the embedded gorm handle is non-nil, whether `DB()` errors,
whether `PingContext` errors, and the pool's open-connection count
from `Stats()`. -/
structure ConnState where
  hasDB : Bool
  getDBErr : Option String
  pingErr : Option String
  openConnections : Int
deriving DecidableEq, Repr

/-- Model of `DB.Ping` (part_000 lines 106-117): nil-handle check, then
`DB()`, then `PingContext`, each error returned raw. `none` is success. -/
def Ping (s : ConnState) : Option ConnErr :=
  if s.hasDB = false then some .notConnected
  else
    match s.getDBErr with
    | some m => some (.clientErr m)
    | none =>
      match s.pingErr with
      | some m => some (.pingFailed m)
      | none => none

/-- Model of `DB.HealthCheck` (part_000 lines 138-160): nil-handle
check, `DB()` (error wrapped), `PingContext` (error wrapped), then the
pool-statistics check failing with the degraded-state error when the
open-connection count is zero. -/
def HealthCheck (s : ConnState) : Option ConnErr :=
  if s.hasDB = false then some .notConnected
  else
    match s.getDBErr with
    | some m => some (.wrappedClientErr m)
    | none =>
      match s.pingErr with
      | some m => some (.wrappedPingFailed m)
      | none =>
        if s.openConnections = 0 then some .degraded
        else none

end Db

namespace Repository

/-- Record type of the repository's test schema (`TestUser` in
repository_test.go): auto-increment integer primary key `id`, `name`,
uniquely-indexed `email`, `age`. The generic `Repository[T]` is
instantiated at this concrete record shape. -/
structure TestUser where
  id : Nat
  name : String
  email : String
  age : Int
deriving DecidableEq, Repr

/-- Error values the modelled GORM backend can surface to repository
callers. `recordNotFound` is `gorm.ErrRecordNotFound` (aliased as the
db package's `ErrNotFound`); `backendUnique` is the raw driver
unique-constraint error; `duplicateKey` is the db package's declared
`ErrDuplicateKey` sentinel, a distinct error value; `appErr` stands
for an arbitrary error returned by a caller's unit of work. -/
inductive Err where
  | recordNotFound
  | backendUnique (table field : String)
  | duplicateKey
  | appErr (msg : String)
deriving DecidableEq, Repr

/-- Backing table for `TestUser`: rows in backend-default (insertion)
order plus the auto-increment counter for the primary key. -/
structure Table where
  rows : List TestUser
  nextId : Nat
deriving DecidableEq, Repr

/-- Primary-key population step of GORM `Create`: a zero-valued `id`
receives the table's next auto-increment value. -/
def assignId (t : Table) (u : TestUser) : TestUser :=
  if u.id = 0 then { u with id := t.nextId } else u

/-- Model of the GORM client's `Create`, as invoked by
`Repository.Create` (repository.go line 21): populate the primary key,
reject a row violating the unique index on `email` or the primary key
with the raw driver constraint error, otherwise append the row. The
constructed `gorm.Config` (part_000 lines 60-65) leaves error
translation off, so the driver error is surfaced unchanged. -/
def gormCreate (t : Table) (u : TestUser) : Table × Except Err TestUser :=
  let u := assignId t u
  if t.rows.any (fun r => r.email = u.email) then
    (t, .error (.backendUnique "test_users" "email"))
  else if t.rows.any (fun r => r.id = u.id) then
    (t, .error (.backendUnique "test_users" "id"))
  else
    ({ rows := t.rows ++ [u], nextId := max t.nextId u.id + 1 }, .ok u)

/-- Row of a list with the least primary key, the row GORM `First`
returns (it orders by primary key and takes `LIMIT 1`). -/
def minById : List TestUser → Option TestUser
  | [] => none
  | r :: rs => some (rs.foldl (fun a b => if b.id < a.id then b else a) r)

/-- Model of GORM `First` over the rows selected by a predicate: the
least-id match, or `gorm.ErrRecordNotFound` when no row matches. -/
def gormFirst (t : Table) (p : TestUser → Bool) : Except Err TestUser :=
  match minById (t.rows.filter p) with
  | none => .error .recordNotFound
  | some r => .ok r

/-- Model of GORM `Find` over a predicate: every matching row in
backend-default order; an empty match is a success, never an error. -/
def gormFind (t : Table) (p : TestUser → Bool) : List TestUser × Option Err :=
  (t.rows.filter p, none)

/-- Offset/limit clause values handed to the GORM query builder. -/
structure PageQuery where
  offset : Int
  limit : Int
deriving DecidableEq, Repr

/-- Model of GORM `Offset(o).Limit(l).Find`: the clause builder emits
`OFFSET` only for a positive offset and `LIMIT` only for a
non-negative limit, so a non-positive offset selects from the first
row and a negative limit selects all remaining rows. -/
def gormOffsetLimitFind (t : Table) (q : PageQuery) : List TestUser × Option Err :=
  let afterOffset := if q.offset > 0 then t.rows.drop q.offset.toNat else t.rows
  let page := if q.limit ≥ 0 then afterOffset.take q.limit.toNat else afterOffset
  (page, none)

/-- Model of GORM `Transaction`, shared by `DB.Transaction` (part_000
lines 120-122) and `Repository.Transaction` (repository.go lines
91-93): run the unit of work on a transaction-scoped handle; commit
its writes on success, or roll back to the pre-transaction state and
propagate the error otherwise. -/
def gormTransaction (t : Table) (fn : Table → Table × Option Err) :
    Table × Option Err :=
  match fn t with
  | (t', none) => (t', none)
  | (_, some e) => (t, some e)

/-- Model of `Repository.Create` (repository.go lines 20-22): a pure
pass-through of the client's `Create`, returning its error unchanged. -/
def Create (t : Table) (u : TestUser) : Table × Except Err TestUser :=
  gormCreate t u

/-- Model of `Repository.FindByID` (repository.go lines 25-27):
`First` with the primary key as inline condition. -/
def FindByID (t : Table) (id : Nat) : Except Err TestUser :=
  gormFirst t (fun r => r.id = id)

/-- Model of `Repository.FindAll` (repository.go lines 30-34): `Find`
with no condition. -/
def FindAll (t : Table) : List TestUser × Option Err :=
  gormFind t (fun _ => true)

/-- Model of `Repository.Count` (repository.go lines 53-58). -/
def Count (t : Table) : Int × Option Err :=
  ((t.rows.length : Int), none)

/-- Model of `Repository.FindWhere` (repository.go lines 61-65):
`Where(query, args...).Find`, the filter expression modelled as the
row predicate it denotes. -/
def FindWhere (t : Table) (p : TestUser → Bool) : List TestUser × Option Err :=
  gormFind t p

/-- Model of `Repository.FirstWhere` (repository.go lines 68-70):
`Where(query, args...).First`. -/
def FirstWhere (t : Table) (p : TestUser → Bool) : Except Err TestUser :=
  gormFirst t p

/-- Offset and limit `Repository.Paginate` hands to the query builder
(repository.go lines 84-85): `offset := (page - 1) * pageSize`, passed
with `pageSize` as limit, with no validation or normalization. -/
def paginateQuery (page pageSize : Int) : PageQuery :=
  ⟨(page - 1) * pageSize, pageSize⟩

/-- Model of `Repository.Paginate` (repository.go lines 73-88): total
row count via `Count`, then `Offset((page-1)*pageSize).Limit(pageSize).Find`;
returns the page slice and the total. -/
def Paginate (t : Table) (page pageSize : Int) :
    List TestUser × Int × Option Err :=
  let total := (Count t).1
  let (page, err) := gormOffsetLimitFind t (paginateQuery page pageSize)
  (page, total, err)

/-- Model of `Repository.Transaction` (repository.go lines 91-93): a
pass-through to the client's `Transaction`. -/
def Transaction (t : Table) (fn : Table → Table × Option Err) :
    Table × Option Err :=
  gormTransaction t fn

end Repository

/-! Theorems settling the claims, in claim order. -/

/-- Helper: GORM First over a selection matching no row of the table
yields the record-not-found error. -/
theorem gormFirst_of_no_match (t : Repository.Table) (p : Repository.TestUser → Bool)
    (h : ∀ r ∈ t.rows, p r = false) :
    Repository.gormFirst t p = .error .recordNotFound := by
  unfold Repository.gormFirst
  have hf : t.rows.filter p = [] := by
    rw [List.filter_eq_nil_iff]
    intro a ha
    simp [h a ha]
  rw [hf]
  rfl

/-- Claim C1: at the failing input (a table already holding a row with
email "duplicate@example.com", then Create of a second record with the
same email), Create fails, but with the raw backend unique-constraint
error propagated unchanged — a value distinct from the repository's
declared duplicate-key sentinel ErrDuplicateKey, which is never
produced. -/
theorem c1_create_duplicate_raw_error :
    Repository.Create ⟨[⟨1, "User 1", "duplicate@example.com", 25⟩], 2⟩
        ⟨0, "User 2", "duplicate@example.com", 28⟩ =
      (⟨[⟨1, "User 1", "duplicate@example.com", 25⟩], 2⟩,
        .error (.backendUnique "test_users" "email")) ∧
    Repository.Err.backendUnique "test_users" "email" ≠
      Repository.Err.duplicateKey := by
  exact ⟨rfl, by decide⟩

/-- Claim C2 as stated is false: construction mutates the caller's
Config. With MaxOpenConns left zero-valued, after New returns the
caller's Config holds 100 there, not the 0 it held before the call. -/
theorem c2_config_not_mutated_counterexample :
    Db.New (some ⟨"postgres", "dsn", 0, 10, 3600000000000, 600000000000, 0⟩) true =
      .ok ⟨"postgres", "dsn", 100, 10, 3600000000000, 600000000000, 0⟩
        ⟨100, 10, 3600000000000, 600000000000⟩ ∧
    (⟨"postgres", "dsn", 100, 10, 3600000000000, 600000000000, 0⟩ : Db.Config) ≠
      ⟨"postgres", "dsn", 0, 10, 3600000000000, 600000000000, 0⟩ := by
  exact ⟨rfl, by decide⟩

/-- Claim C2, amended: after New returns, the caller's Config holds
its original values in Driver, DSN, LogLevel and in every pool field
that was non-zero; each zero-valued pool field has been overwritten in
place with its default (100 / 10 / 1 hour / 10 minutes). -/
theorem c2_config_mutation_amended (c c' : Db.Config) (applied : Db.PoolSettings)
    (h : Db.New (some c) true = .ok c' applied) :
    c'.Driver = c.Driver ∧ c'.DSN = c.DSN ∧ c'.LogLevel = c.LogLevel ∧
    (c.MaxOpenConns ≠ 0 → c'.MaxOpenConns = c.MaxOpenConns) ∧
    (c.MaxIdleConns ≠ 0 → c'.MaxIdleConns = c.MaxIdleConns) ∧
    (c.ConnMaxLifetime ≠ 0 → c'.ConnMaxLifetime = c.ConnMaxLifetime) ∧
    (c.ConnMaxIdleTime ≠ 0 → c'.ConnMaxIdleTime = c.ConnMaxIdleTime) ∧
    (c.MaxOpenConns = 0 → c'.MaxOpenConns = 100) ∧
    (c.MaxIdleConns = 0 → c'.MaxIdleConns = 10) ∧
    (c.ConnMaxLifetime = 0 → c'.ConnMaxLifetime = Db.timeHour) ∧
    (c.ConnMaxIdleTime = 0 → c'.ConnMaxIdleTime = 10 * Db.timeMinute) := by
  have hred : Db.New (some c) true =
      .ok (Db.setDefaults c)
        ⟨(Db.setDefaults c).MaxOpenConns, (Db.setDefaults c).MaxIdleConns,
         (Db.setDefaults c).ConnMaxLifetime, (Db.setDefaults c).ConnMaxIdleTime⟩ := rfl
  rw [hred] at h
  injection h with h1 h2
  subst h1
  refine ⟨rfl, rfl, rfl, ?_, ?_, ?_, ?_, ?_, ?_, ?_, ?_⟩ <;>
    intro hx <;> simp [Db.setDefaults, hx]

/-- Witness for C2's amended theorem at a concrete configuration with
a zero MaxIdleConns and the other pool fields non-zero. -/
theorem c2_config_mutation_amended_witness :
    Db.New (some ⟨"mysql", "d", 5, 0, 7, 9, 1⟩) true =
      .ok ⟨"mysql", "d", 5, 10, 7, 9, 1⟩ ⟨5, 10, 7, 9⟩ ∧
    ((5 : Int) ≠ 0 → (Db.Config.mk "mysql" "d" 5 10 7 9 1).MaxOpenConns = 5) ∧
    ((0 : Int) = 0 → (Db.Config.mk "mysql" "d" 5 10 7 9 1).MaxIdleConns = 10) := by
  have h : Db.New (some ⟨"mysql", "d", 5, 0, 7, 9, 1⟩) true =
      .ok ⟨"mysql", "d", 5, 10, 7, 9, 1⟩ ⟨5, 10, 7, 9⟩ := by rfl
  have hmain := c2_config_mutation_amended ⟨"mysql", "d", 5, 0, 7, 9, 1⟩
    ⟨"mysql", "d", 5, 10, 7, 9, 1⟩ ⟨5, 10, 7, 9⟩ h
  exact ⟨h, hmain.2.2.2.1, fun _ => hmain.2.2.2.2.2.2.2.2.1 rfl⟩

/-- Claim C3: HealthCheck runs the same nil-handle / client-handle /
ping sequence as Ping first, so every state on which Ping fails also
makes HealthCheck fail; when the ping sequence succeeds, HealthCheck
additionally fails with the degraded-state error exactly when the
pool's open-connection count is zero. -/
theorem c3_healthCheck_stricter_than_ping (s : Db.ConnState) :
    (Db.Ping s ≠ none → Db.HealthCheck s ≠ none) ∧
    (Db.Ping s = none → s.openConnections = 0 →
      Db.HealthCheck s = some .degraded) ∧
    (Db.Ping s = none → s.openConnections ≠ 0 →
      Db.HealthCheck s = none) := by
  obtain ⟨hasDB, getDBErr, pingErr, oc⟩ := s
  cases hasDB <;> cases getDBErr <;> cases pingErr <;>
    by_cases hoc : oc = 0 <;>
    simp_all [Db.Ping, Db.HealthCheck]

/-- Witness for C3 at a state with a live handle, a succeeding ping
and a drained pool: Ping succeeds while HealthCheck reports the
degraded state. -/
theorem c3_healthCheck_stricter_than_ping_witness :
    Db.Ping ⟨true, none, none, 0⟩ = none ∧
    (0 : Int) = 0 ∧
    Db.HealthCheck ⟨true, none, none, 0⟩ = some .degraded := by
  exact ⟨rfl, rfl,
    (c3_healthCheck_stricter_than_ping ⟨true, none, none, 0⟩).2.1 rfl rfl⟩

/-- Claim C4: on a configuration whose four numeric pool parameters
are zero-valued, construction succeeds and applies exactly 100 max
open connections, 10 max idle connections, a 1-hour connection max
lifetime and a 10-minute connection max idle time to the underlying
client; any non-zero pool parameter is applied unchanged. -/
theorem c4_pool_defaults (c c' : Db.Config) (applied : Db.PoolSettings)
    (h : Db.New (some c) true = .ok c' applied) :
    (c.MaxOpenConns = 0 → applied.maxOpen = 100) ∧
    (c.MaxIdleConns = 0 → applied.maxIdle = 10) ∧
    (c.ConnMaxLifetime = 0 → applied.maxLifetime = Db.timeHour) ∧
    (c.ConnMaxIdleTime = 0 → applied.maxIdleTime = 10 * Db.timeMinute) ∧
    (c.MaxOpenConns ≠ 0 → applied.maxOpen = c.MaxOpenConns) ∧
    (c.MaxIdleConns ≠ 0 → applied.maxIdle = c.MaxIdleConns) ∧
    (c.ConnMaxLifetime ≠ 0 → applied.maxLifetime = c.ConnMaxLifetime) ∧
    (c.ConnMaxIdleTime ≠ 0 → applied.maxIdleTime = c.ConnMaxIdleTime) := by
  have hred : Db.New (some c) true =
      .ok (Db.setDefaults c)
        ⟨(Db.setDefaults c).MaxOpenConns, (Db.setDefaults c).MaxIdleConns,
         (Db.setDefaults c).ConnMaxLifetime, (Db.setDefaults c).ConnMaxIdleTime⟩ := rfl
  rw [hred] at h
  injection h with h1 h2
  subst h2
  refine ⟨?_, ?_, ?_, ?_, ?_, ?_, ?_, ?_⟩ <;>
    intro hx <;> simp [Db.setDefaults, hx]

/-- Witness for C4 at the all-zero pool configuration: the defaults
100 / 10 / 1 hour / 10 minutes are the applied pool settings. -/
theorem c4_pool_defaults_witness :
    Db.New (some ⟨"sqlite", "file.db", 0, 0, 0, 0, 0⟩) true =
      .ok ⟨"sqlite", "file.db", 100, 10, 3600000000000, 600000000000, 0⟩
        ⟨100, 10, 3600000000000, 600000000000⟩ ∧
    (Db.PoolSettings.mk 100 10 3600000000000 600000000000).maxOpen = 100 ∧
    (Db.PoolSettings.mk 100 10 3600000000000 600000000000).maxIdle = 10 ∧
    (Db.PoolSettings.mk 100 10 3600000000000 600000000000).maxLifetime = Db.timeHour ∧
    (Db.PoolSettings.mk 100 10 3600000000000 600000000000).maxIdleTime = 10 * Db.timeMinute := by
  have h : Db.New (some ⟨"sqlite", "file.db", 0, 0, 0, 0, 0⟩) true =
      .ok ⟨"sqlite", "file.db", 100, 10, 3600000000000, 600000000000, 0⟩
        ⟨100, 10, 3600000000000, 600000000000⟩ := by rfl
  have hmain := c4_pool_defaults ⟨"sqlite", "file.db", 0, 0, 0, 0, 0⟩
    ⟨"sqlite", "file.db", 100, 10, 3600000000000, 600000000000, 0⟩
    ⟨100, 10, 3600000000000, 600000000000⟩ h
  exact ⟨h, hmain.1 rfl, hmain.2.1 rfl, hmain.2.2.1 rfl, hmain.2.2.2.1 rfl⟩

/-- Claim C10: defaulting triggers only on a field that is exactly
zero; a negative pool parameter is left in place in the caller's
config and passed unchanged to the underlying client's pool setters,
and construction still succeeds rather than rejecting it. -/
theorem c10_negative_pool_passthrough (c c' : Db.Config) (applied : Db.PoolSettings)
    (h : Db.New (some c) true = .ok c' applied) :
    (c.MaxOpenConns < 0 →
      applied.maxOpen = c.MaxOpenConns ∧ c'.MaxOpenConns = c.MaxOpenConns) ∧
    (c.MaxIdleConns < 0 →
      applied.maxIdle = c.MaxIdleConns ∧ c'.MaxIdleConns = c.MaxIdleConns) ∧
    (c.ConnMaxLifetime < 0 →
      applied.maxLifetime = c.ConnMaxLifetime ∧ c'.ConnMaxLifetime = c.ConnMaxLifetime) ∧
    (c.ConnMaxIdleTime < 0 →
      applied.maxIdleTime = c.ConnMaxIdleTime ∧ c'.ConnMaxIdleTime = c.ConnMaxIdleTime) := by
  have hred : Db.New (some c) true =
      .ok (Db.setDefaults c)
        ⟨(Db.setDefaults c).MaxOpenConns, (Db.setDefaults c).MaxIdleConns,
         (Db.setDefaults c).ConnMaxLifetime, (Db.setDefaults c).ConnMaxIdleTime⟩ := rfl
  rw [hred] at h
  injection h with h1 h2
  subst h1
  subst h2
  refine ⟨?_, ?_, ?_, ?_⟩
  · intro hx
    have hne : c.MaxOpenConns ≠ 0 := by omega
    exact ⟨by simp [Db.setDefaults, hne], by simp [Db.setDefaults, hne]⟩
  · intro hx
    have hne : c.MaxIdleConns ≠ 0 := by omega
    exact ⟨by simp [Db.setDefaults, hne], by simp [Db.setDefaults, hne]⟩
  · intro hx
    have hne : c.ConnMaxLifetime ≠ 0 := by omega
    exact ⟨by simp [Db.setDefaults, hne], by simp [Db.setDefaults, hne]⟩
  · intro hx
    have hne : c.ConnMaxIdleTime ≠ 0 := by omega
    exact ⟨by simp [Db.setDefaults, hne], by simp [Db.setDefaults, hne]⟩

/-- Witness for C10 at a configuration with all four pool parameters
negative: construction succeeds and applies the negative values
unchanged. -/
theorem c10_negative_pool_passthrough_witness :
    Db.New (some ⟨"postgres", "dsn", -1, -2, -3, -4, 0⟩) true =
      .ok ⟨"postgres", "dsn", -1, -2, -3, -4, 0⟩ ⟨-1, -2, -3, -4⟩ ∧
    (-1 : Int) < 0 ∧
    (Db.PoolSettings.mk (-1) (-2) (-3) (-4)).maxOpen = -1 := by
  have h : Db.New (some ⟨"postgres", "dsn", -1, -2, -3, -4, 0⟩) true =
      .ok ⟨"postgres", "dsn", -1, -2, -3, -4, 0⟩ ⟨-1, -2, -3, -4⟩ := by rfl
  have hmain := c10_negative_pool_passthrough ⟨"postgres", "dsn", -1, -2, -3, -4, 0⟩
    ⟨"postgres", "dsn", -1, -2, -3, -4, 0⟩ ⟨-1, -2, -3, -4⟩ h
  exact ⟨h, by decide, (hmain.1 (by decide)).1⟩

/-- Claim C5: for every page and pageSize, including non-positive
values, Paginate hands the query builder exactly the offset
(page - 1) * pageSize and the limit pageSize, with no validation or
normalization, and returns the table's total row count alongside the
page slice produced by that query. -/
theorem c5_paginate_offset (t : Repository.Table) (page pageSize : Int) :
    (Repository.paginateQuery page pageSize).offset = (page - 1) * pageSize ∧
    (Repository.paginateQuery page pageSize).limit = pageSize ∧
    Repository.Paginate t page pageSize =
      ((Repository.gormOffsetLimitFind t ⟨(page - 1) * pageSize, pageSize⟩).1,
        (t.rows.length : Int),
        (Repository.gormOffsetLimitFind t ⟨(page - 1) * pageSize, pageSize⟩).2) := by
  exact ⟨rfl, rfl, rfl⟩

/-- Claim C6: FindByID on a primary key matching no row fails with the
record-not-found error, and FirstWhere with a predicate matching no
row fails with the record-not-found error. -/
theorem c6_missing_row_notFound (t : Repository.Table) (id : Nat)
    (p : Repository.TestUser → Bool)
    (h1 : ∀ r ∈ t.rows, r.id ≠ id) (h2 : ∀ r ∈ t.rows, p r = false) :
    Repository.FindByID t id = .error .recordNotFound ∧
    Repository.FirstWhere t p = .error .recordNotFound := by
  constructor
  · unfold Repository.FindByID
    apply gormFirst_of_no_match
    intro r hr
    simp [h1 r hr]
  · exact gormFirst_of_no_match t p h2

/-- Witness for C6 on a one-row table: id 99999 matches no row and the
predicate age = 99 matches no row. -/
theorem c6_missing_row_notFound_witness :
    Repository.FindByID ⟨[⟨1, "Jane Doe", "jane@example.com", 28⟩], 2⟩ 99999 =
      .error .recordNotFound ∧
    Repository.FirstWhere ⟨[⟨1, "Jane Doe", "jane@example.com", 28⟩], 2⟩
      (fun r => r.age = 99) = .error .recordNotFound := by
  exact c6_missing_row_notFound ⟨[⟨1, "Jane Doe", "jane@example.com", 28⟩], 2⟩
    99999 (fun r => r.age = 99) (by decide) (by decide)

/-- Claim C7: when the unit of work succeeds, Transaction commits and
the worked state (all its writes) is the state afterward; when the
unit of work returns any error, Transaction rolls back to the
pre-transaction state (none of its writes visible) and propagates that
error to the caller. -/
theorem c7_transaction_atomicity (t : Repository.Table)
    (fn : Repository.Table → Repository.Table × Option Repository.Err) :
    (∀ t', fn t = (t', none) → Repository.Transaction t fn = (t', none)) ∧
    (∀ t' e, fn t = (t', some e) → Repository.Transaction t fn = (t, some e)) := by
  constructor
  · intro t' hfn
    unfold Repository.Transaction Repository.gormTransaction
    rw [hfn]
  · intro t' e hfn
    unfold Repository.Transaction Repository.gormTransaction
    rw [hfn]

/-- Witness for C7: a committing unit of work inserting one row leaves
that row visible, and a failing unit of work leaves the empty table
unchanged with its error propagated. -/
theorem c7_transaction_atomicity_witness :
    Repository.Transaction ⟨[], 1⟩
        (fun tb => (⟨tb.rows ++ [⟨1, "A", "a@x", 1⟩], 2⟩, none)) =
      (⟨[⟨1, "A", "a@x", 1⟩], 2⟩, none) ∧
    Repository.Transaction ⟨[], 1⟩
        (fun tb => (⟨tb.rows ++ [⟨1, "A", "a@x", 1⟩], 2⟩, some (.appErr "boom"))) =
      (⟨[], 1⟩, some (.appErr "boom")) := by
  exact ⟨(c7_transaction_atomicity ⟨[], 1⟩ _).1 _ rfl,
    (c7_transaction_atomicity ⟨[], 1⟩ _).2 _ _ rfl⟩

/-- Claim C8: FindWhere with a predicate matching no row returns the
empty sequence with no error, and FindAll over an empty table returns
the empty sequence with no error. -/
theorem c8_empty_result_not_error (t te : Repository.Table)
    (p : Repository.TestUser → Bool)
    (h : ∀ r ∈ t.rows, p r = false) (he : te.rows = []) :
    Repository.FindWhere t p = ([], none) ∧
    Repository.FindAll te = ([], none) := by
  constructor
  · unfold Repository.FindWhere Repository.gormFind
    have hf : t.rows.filter p = [] := by
      rw [List.filter_eq_nil_iff]
      intro a ha
      simp [h a ha]
    rw [hf]
  · unfold Repository.FindAll Repository.gormFind
    rw [he]
    rfl

/-- Witness for C8: on a one-row table the predicate age = 99 matches
nothing and FindWhere returns the empty list without error, and
FindAll on the empty table returns the empty list without error. -/
theorem c8_empty_result_not_error_witness :
    Repository.FindWhere ⟨[⟨1, "Jane Doe", "jane@example.com", 28⟩], 2⟩
      (fun r => r.age = 99) = ([], none) ∧
    Repository.FindAll ⟨[], 1⟩ = ([], none) := by
  exact c8_empty_result_not_error ⟨[⟨1, "Jane Doe", "jane@example.com", 28⟩], 2⟩
    ⟨[], 1⟩ (fun r => r.age = 99) (by decide) rfl

/-- Claim C9: whenever Create succeeds, returning the stored record
with its auto-generated primary key populated, FindByID on that key
against the post-insert table succeeds and yields a record equal to
the stored record in all fields. -/
theorem c9_create_findById_roundtrip (t t' : Repository.Table)
    (u u' : Repository.TestUser)
    (h : Repository.Create t u = (t', Except.ok u')) :
    Repository.FindByID t' u'.id = .ok u' := by
  simp only [Repository.Create, Repository.gormCreate] at h
  split_ifs at h with hemail hid
  · exact absurd (congrArg Prod.snd h) (by simp)
  · exact absurd (congrArg Prod.snd h) (by simp)
  · injection h with hA hB
    injection hB with hB
    subst hA
    subst hB
    unfold Repository.FindByID Repository.gormFirst
    have hnone : t.rows.filter (fun r => r.id = (Repository.assignId t u).id) = [] := by
      rw [List.filter_eq_nil_iff]
      intro a ha
      simp only [List.any_eq_true, decide_eq_true_eq] at hid
      simpa using fun hc => hid ⟨a, ha, hc⟩
    rw [List.filter_append, hnone]
    simp [Repository.minById]

/-- Witness for C9: creating Jane Doe in an empty table assigns key 1
and FindByID 1 returns the identical record. -/
theorem c9_create_findById_roundtrip_witness :
    Repository.Create ⟨[], 1⟩ ⟨0, "Jane Doe", "jane@example.com", 28⟩ =
      (⟨[⟨1, "Jane Doe", "jane@example.com", 28⟩], 2⟩,
        Except.ok ⟨1, "Jane Doe", "jane@example.com", 28⟩) ∧
    Repository.FindByID ⟨[⟨1, "Jane Doe", "jane@example.com", 28⟩], 2⟩ 1 =
      .ok ⟨1, "Jane Doe", "jane@example.com", 28⟩ := by
  have h : Repository.Create ⟨[], 1⟩ ⟨0, "Jane Doe", "jane@example.com", 28⟩ =
      (⟨[⟨1, "Jane Doe", "jane@example.com", 28⟩], 2⟩,
        Except.ok ⟨1, "Jane Doe", "jane@example.com", 28⟩) := by rfl
  exact ⟨h, c9_create_findById_roundtrip _ _ _ _ h⟩
